import Mathlib

/-!
Verification of the retrieval orchestration layer of GNU Wget (src/retr.c).

The development shallowly embeds the functions of retr.c:

* `downloaded_increase` and `downloaded_exceeds_quota` — the saturating
  global byte counter and the quota predicate (Download Accounting);
* `sleep_between_retrievals` — the retry backoff scheduler;
* `rate` — the transfer rate formatter;
* `get_contents` — the streaming transfer engine;
* `retrieve_url` — the URL retrieval orchestrator with redirect handling;
* `retrieve_from_file` — the batch retrieval driver.

Machine integers are embedded as `Nat`/`Int` with explicit reduction
modulo `2 ^ 64` where unsigned wraparound matters.  The C globals
(`opt.downloaded`, `opt.downloaded_overflow`, `opt.quota`, `opt.wait`,
`opt.waitretry`) become fields of an explicit `Opt` record, and the
static `first_retrieval` flag of the scheduler is passed and returned
explicitly.  External collaborators (URL parser, protocol loops, proxy
resolution, buffered reads) become function-valued fields of explicit
environment records, so the embedded code is parametric in them exactly
where the C code calls out.
-/

namespace Wget

/-- The width of `VERY_LONG_TYPE` (unsigned 64-bit): arithmetic on
`opt.downloaded` wraps modulo this value. -/
def VERY_LONG_MODULUS : Nat := 2 ^ 64

/-- The maximum representable `VERY_LONG_TYPE` value, `~((VERY_LONG_TYPE)0)`
in the C source. -/
def VERY_LONG_MAX : Nat := 2 ^ 64 - 1

/-- The fields of the global `opt` record that retr.c reads or writes:
the cumulative downloaded byte counter, its sticky overflow flag, the
byte quota (`0` = unset), and the two wait options (`0` = unset). -/
structure Opt where
  downloaded : Nat
  downloaded_overflow : Bool
  quota : Nat
  wait : Nat
  waitretry : Nat
deriving DecidableEq, Repr

/-- Embedding of `downloaded_increase` (retr.c lines 470-485): a no-op
once the overflow flag is latched; otherwise adds `by_how_much` to the
counter with 64-bit wraparound, and if the new value is numerically
smaller than the old one, latches the overflow flag and clamps the
counter to `VERY_LONG_MAX`. -/
def downloaded_increase (o : Opt) (by_how_much : Nat) : Opt :=
  if o.downloaded_overflow then o
  else
    let old := o.downloaded
    let newv := (old + by_how_much) % VERY_LONG_MODULUS
    if newv < old then
      { o with downloaded := VERY_LONG_MAX, downloaded_overflow := true }
    else
      { o with downloaded := newv }

/-- Embedding of `downloaded_exceeds_quota` (retr.c lines 490-500):
false when no quota is configured, false when the overflow flag is
latched, otherwise true iff the counter strictly exceeds the quota. -/
def downloaded_exceeds_quota (o : Opt) : Bool :=
  if o.quota = 0 then false
  else if o.downloaded_overflow then false
  else decide (o.quota < o.downloaded)

/-- Embedding of `sleep_between_retrievals` (retr.c lines 508-531).
The static `first_retrieval` flag is passed in and the updated flag is
returned together with the number of seconds slept: no sleep happens on
the first-ever call; afterwards, with `waitretry` configured and
`count > 1`, the sleep is `count - 1` capped at `waitretry`; otherwise
a configured flat `wait` is used. -/
def sleep_between_retrievals (o : Opt) (first_retrieval : Bool) (count : Nat) :
    Nat × Bool :=
  let slept :=
    if first_retrieval = false ∧ (o.wait ≠ 0 ∨ o.waitretry ≠ 0) then
      if o.waitretry ≠ 0 ∧ 1 < count then
        if count ≤ o.waitretry then count - 1 else o.waitretry
      else if o.wait ≠ 0 then o.wait else 0
    else 0
  (slept, false)

/-- Two-decimal fixed-point rendering of the exact rational
`num / den`, rounding to nearest as `sprintf` with `%.2f` does.  The C
code computes the quotient in double precision; the embedding keeps it
as an exact rational, which agrees with the double computation whenever
the latter is exact. -/
def fmt2 (num den : Nat) : String :=
  let n := (200 * num + den) / (2 * den)
  toString (n / 100) ++ "." ++ (if n % 100 < 10 then "0" else "") ++ toString (n % 100)

/-- Right-justify a numeric field to width 7, as `%7.2f` does. -/
def padTo7 (s : String) : String :=
  String.mk (List.replicate (7 - s.length) ' ') ++ s

/-- Embedding of `rate` (retr.c lines 156-185).  `gran` stands for the
external `wtimer_granularity ()`, substituted for a zero `msecs`.  The
download rate `1000 * bytes / m` is kept as the exact rational with
numerator `1000 * bytes` and denominator `m`, so a comparison
`dlrate < c` becomes `1000 * bytes < c * m` and dividing the rate by a
unit multiplies the denominator. -/
def rate (gran : Nat) (bytes msecs : Nat) (pad : Bool) : String :=
  let m := if msecs = 0 then gran else msecs
  let padfmt := fun s : String => if pad then padTo7 s else s
  if 1000 * bytes < 1024 * m then
    padfmt (fmt2 (1000 * bytes) m) ++ " B/s"
  else if 1000 * bytes < 1024 * 1024 * m then
    padfmt (fmt2 (1000 * bytes) (1024 * m)) ++ " K/s"
  else if 1000 * bytes < 1024 * 1024 * 1024 * m then
    padfmt (fmt2 (1000 * bytes) (1024 * 1024 * m)) ++ " M/s"
  else
    padfmt (fmt2 (1000 * bytes) (1024 * 1024 * 1024 * m)) ++ " GB/s"

/-- Events seen by the progress reporter collaborator of
`get_contents`: `progress_create (restval, expected)`,
`progress_update (amount)` and `progress_finish`. -/
inductive PEvent where
  | created (restval expected : Int)
  | updated (amount : Int)
  | finished
deriving DecidableEq, BEq, Repr

/-- Pop the outcome of the next file write; an exhausted supply means
the write succeeds (the supply only lists the outcomes that matter). -/
def popWrite : List Bool → Bool × List Bool
  | [] => (true, [])
  | w :: ws => (w, ws)

/-- Outcome of the main read loop of `get_contents` (retr.c lines
112-141).  `done` is the normal loop exit, with `res` holding the last
read result; `werr` is the early `return -2` after a failed
write/flush, which skips both the clamping of `res` and
`progress_finish`; `starved` marks that the supplied list of read
results ran out while the loop still wanted to read (a model artifact,
excluded by the theorems). -/
inductive LoopOut where
  | done (res len : Int) (nreads : Nat) (events : List PEvent)
  | werr (len : Int) (nreads : Nat) (events : List PEvent)
  | starved
deriving DecidableEq, BEq, Repr

/-- Embedding of the main read loop of `get_contents`: while the
expected length is unknown (`use_expected` false) or fewer than
`expected` bytes are counted, read the next result from the connection
(`reads` lists the successive `iread`/`ssl_iread` return values); a
positive result is written to the file (consuming one write outcome;
failure returns the write-error marker at once), reported to the
progress reporter when verbose, and added to the length; a non-positive
result ends the loop and becomes the result value.  The
`amount_to_read` computed by the C code only bounds what `iread` may
return and is abstracted into the supplied read results. -/
def gcLoop (verbose use_expected : Bool) (expected : Int) :
    List Int → List Bool → Int → Int → Nat → List PEvent → LoopOut
  | reads, writes, len, res, nreads, events =>
    if use_expected = false ∨ len < expected then
      match reads with
      | [] => .starved
      | r :: rest =>
        if 0 < r then
          let wr := popWrite writes
          if wr.1 then
            gcLoop verbose use_expected expected rest wr.2 (len + r) r (nreads + 1)
              (events ++ if verbose then [.updated r] else [])
          else .werr len (nreads + 1) events
        else .done r len (nreads + 1) events
    else .done res len nreads events

/-- Outcome of the buffered-read flush prelude of `get_contents`
(retr.c lines 90-106): either all buffered chunks were drained
(`ok`, remembering whether a final `fflush` is due) or an `fwrite`
came up short and the function returns `-2` (`werr`). -/
inductive PreOut where
  | ok (len : Int) (writes : List Bool) (events : List PEvent) (need_flush : Bool)
  | werr (len : Int) (events : List PEvent)
deriving DecidableEq, BEq, Repr

/-- Embedding of the `rbuf_flush` prelude loop: `rbuf_data` lists the
successive positive amounts returned by `rbuf_flush` (the list ends
when it returns 0).  Each chunk is written to the file (a short write
returns the write-error marker immediately, before any progress update
or length bump), reported when verbose, and added to the length. -/
def gcPrelude (verbose : Bool) :
    List Int → List Bool → Int → List PEvent → Bool → PreOut
  | [], writes, len, events, need_flush => .ok len writes events need_flush
  | r :: rest, writes, len, events, _ =>
    let wr := popWrite writes
    if wr.1 then
      gcPrelude verbose rest wr.2 (len + r)
        (events ++ if verbose then [.updated r] else []) true
    else .werr len events

/-- Inputs of `get_contents` (retr.c lines 78-147): the option
`opt.verbose`, the `restval`/`expected`/`use_expected` arguments, and
the external world it consumes — whether `rbuf` belongs to the same
descriptor, the buffered amounts it yields, the outcome of the final
prelude `fflush`/`ferror` check, the successive connection read
results, and the successive file write outcomes. -/
structure GCIn where
  verbose : Bool
  restval : Int
  expected : Int
  use_expected : Bool
  rbuf_same_fd : Bool
  rbuf_data : List Int
  flush_ok : Bool
  reads : List Int
  writes : List Bool
deriving DecidableEq, BEq, Repr

/-- Result of `get_contents`: the returned code, the final `*len`, the
number of `iread` calls performed, and the trace of progress-reporter
events; `outOfReads` marks the model artifact of an exhausted read
supply. -/
inductive GCOut where
  | ok (res len : Int) (nreads : Nat) (events : List PEvent)
  | outOfReads
deriving DecidableEq, BEq, Repr

/-- The returned code of a `get_contents` outcome. -/
def GCOut.code : GCOut → Option Int
  | .ok res _ _ _ => some res
  | .outOfReads => none

/-- The number of connection reads performed by a `get_contents`
outcome. -/
def GCOut.readsPerformed : GCOut → Option Nat
  | .ok _ _ nreads _ => some nreads
  | .outOfReads => none

/-- The progress-reporter event trace of a `get_contents` outcome. -/
def GCOut.trace : GCOut → Option (List PEvent)
  | .ok _ _ _ events => some events
  | .outOfReads => none

/-- Embedding of `get_contents` (retr.c lines 78-147): `*len` starts at
`restval`; when verbose the progress reporter is created with
`(restval, expected)`; a same-descriptor `rbuf` is flushed first (a
write failure there, or a failed `ferror` check after its final
`fflush`, returns `-2` at once); then the main read loop runs; on its
normal exit any result more negative than `-1` is clamped to `-1` and,
when verbose, the progress reporter is finalized.  The early `-2`
returns reach the caller without clamping and without finalizing the
reporter, exactly as the C `return -2` statements do. -/
def get_contents (a : GCIn) : GCOut :=
  let events0 : List PEvent := if a.verbose then [.created a.restval a.expected] else []
  let pre : PreOut :=
    if a.rbuf_same_fd then gcPrelude a.verbose a.rbuf_data a.writes a.restval events0 false
    else .ok a.restval a.writes events0 false
  match pre with
  | .werr len events => .ok (-2) len 0 events
  | .ok len writes events need_flush =>
    if need_flush && !a.flush_ok then .ok (-2) len 0 events
    else
      match gcLoop a.verbose a.use_expected a.expected a.reads writes len 0 0 events with
      | .starved => .outOfReads
      | .werr len2 nreads events2 => .ok (-2) len2 nreads events2
      | .done res len2 nreads events2 =>
        .ok (if res < -1 then -1 else res) len2 nreads
          (events2 ++ if a.verbose then [.finished] else [])

/-- URL schemes this layer dispatches on (`SCHEME_HTTP`,
`SCHEME_HTTPS`, `SCHEME_FTP` from url.h). -/
inductive Scheme where
  | http
  | https
  | ftp
deriving DecidableEq, BEq, Repr

/-- Modelled from the spec: the status enumeration `uerr_t` is defined
in wget.h, which is not among the given sources.  The spec lists the
symbolic statuses of this layer and retr.c names the constructors
`RETROK`, `NOCONERROR`, `URLERROR`, `PROXERR`, `NEWLOCATION`,
`WRONGCODE` and `QUOTEXC`; `OTHERERR` stands for any remaining status a
protocol loop collaborator may produce. -/
inductive Uerr where
  | RETROK
  | NOCONERROR
  | URLERROR
  | PROXERR
  | NEWLOCATION
  | WRONGCODE
  | QUOTEXC
  | OTHERERR
deriving DecidableEq, BEq, Repr

/-- Modelled from the spec: the download descriptor bit flags `RETROKF`
("completed successfully") and `TEXTHTML` ("content is HTML") are
defined in wget.h, which is not among the given sources; the spec
describes them as a per-transfer bitset with exactly these two
meanings. -/
structure DtFlags where
  retrokf : Bool
  texthtml : Bool
deriving DecidableEq, BEq, Repr

/-- A parsed URL as produced by the external `url_parse`: the canonical
string form `u->url` plus the scheme and host fields retr.c reads. -/
structure URL where
  url : String
  scheme : Scheme
  host : String
deriving DecidableEq, BEq, Repr

/-- What a protocol loop collaborator (`http_loop` or `ftp_loop`)
returns through its status and out-parameters: the status, the
reported new location (non-null whenever the status is `NEWLOCATION`),
the local file path, and the `*dt` flags. -/
structure LoopResult where
  result : Uerr
  mynewloc : Option String
  local_file : Option String
  dt : DtFlags
deriving DecidableEq, BEq, Repr

/-- The external collaborators and `opt` fields consumed by
`retrieve_url`: proxying options, the referer default, the recursion
option, the URL parser (`none` embeds a parse failure of any error
code), relative-reference merging (`uri_merge`), proxy resolution
(`getproxy`) and exemption (`no_proxy_match`, true when the host is
not exempted), and the two protocol loops.  The `Bool` passed to
`ftp_loop` is the effective `opt.recursive` seen by that call (the C
code forces it to 0 inside a redirect chain and restores it after). -/
structure Env where
  opt_use_proxy : Bool
  opt_referer : Option String
  opt_recursive : Bool
  url_parse : String → Option URL
  uri_merge : String → String → String
  getproxy : Scheme → Option String
  no_proxy_match : String → Bool
  http_loop : URL → Option String → Option URL → LoopResult
  ftp_loop : URL → Bool → LoopResult

/-- The observable outcome of one `retrieve_url` call: the returned
status, the values stored through the `file` and `newloc` output
parameters (`none` embeds NULL), the number of protocol-loop dispatches
performed, the number of `++global_download_count` executions, and the
contents of the visited-redirect set at the moment the call returns
(`[]` when the set was never created; the C code frees it on return). -/
structure RetrieveResult where
  result : Uerr
  file : Option String
  newloc : Option String
  hops : Nat
  downloads : Nat
  visited : List String
deriving DecidableEq, BEq, Repr

/-- Embedding of `string_set_add` on the visited-redirect set:
insertion of a canonical URL string into a string set, here a
duplicate-free list. -/
def string_set_add (s : List String) (x : String) : List String :=
  if x ∈ s then s else s ++ [x]

/-- Embedding of the redirect loop of `retrieve_url` (retr.c lines
230-407), entered at the `redirected:` label with the current parsed
URL `u`, its string form `url`, the lazily created visited-redirect set
and the dispatch count so far.  Each iteration determines proxy use
(three proxy configuration failures return `PROXERR` without
dispatching), dispatches to `http_loop` (possibly through the proxy) or
`ftp_loop` (with recursion suppressed inside a redirect chain), and on
a `NEWLOCATION` outcome merges and re-parses the reported location
(parse failure returns the status with no outputs assigned), creates
the visited set on the first redirect recording the pre-redirect URL,
detects cycles (`WRONGCODE`), or rebinds the current URL and loops.  A
non-redirect outcome registers and returns the local file, assigns the
outputs, and increments `global_download_count` once.  The fuel
argument bounds the number of iterations the model may take; `none`
means it ran out (excluded by the theorems). -/
def retrieve_url_loop (env : Env) (refurl : Option String) :
    Nat → URL → String → Option (List String) → Nat → Option RetrieveResult
  | 0, _, _, _, _ => none
  | fuel + 1, u, url, redirections, hops =>
    let use_proxy := env.opt_use_proxy && (env.getproxy u.scheme).isSome &&
      env.no_proxy_match u.host
    let dispatched : RetrieveResult ⊕ LoopResult :=
      if use_proxy then
        match env.getproxy u.scheme with
        | none => Sum.inl ⟨.PROXERR, none, none, hops, 0, redirections.getD []⟩
        | some proxy =>
          match env.url_parse proxy with
          | none => Sum.inl ⟨.PROXERR, none, none, hops, 0, redirections.getD []⟩
          | some proxy_url =>
            if proxy_url.scheme = Scheme.http then
              Sum.inr (env.http_loop u refurl (some proxy_url))
            else
              Sum.inl ⟨.PROXERR, none, none, hops, 0, redirections.getD []⟩
      else
        match u.scheme with
        | .ftp => Sum.inr (env.ftp_loop u
            (if redirections.isSome then false else env.opt_recursive))
        | _ => Sum.inr (env.http_loop u refurl none)
    match dispatched with
    | Sum.inl early => some early
    | Sum.inr lr =>
      if lr.result = .NEWLOCATION then
        let mynewloc := lr.mynewloc.getD ""
        let construced_newloc := env.uri_merge url mynewloc
        match env.url_parse construced_newloc with
        | none =>
          some ⟨lr.result, none, none, hops + 1, 0, redirections.getD []⟩
        | some newloc_struct =>
          let redirections1 :=
            match redirections with
            | none => string_set_add [] u.url
            | some s => s
          if newloc_struct.url ∈ redirections1 then
            some ⟨.WRONGCODE, none, none, hops + 1, 0, redirections1⟩
          else
            retrieve_url_loop env refurl fuel newloc_struct newloc_struct.url
              (some (string_set_add redirections1 newloc_struct.url)) (hops + 1)
      else
        some ⟨lr.result, lr.local_file, some url, hops + 1, 1, redirections.getD []⟩

/-- Embedding of `retrieve_url` (retr.c lines 194-407): NULL the output
parameters, parse the original URL (failure returns `URLERROR` with no
dispatch and no counter increment), default the referrer from
`opt.referer`, and enter the redirect loop. -/
def retrieve_url (env : Env) (fuel : Nat) (origurl : String) (refurl : Option String) :
    Option RetrieveResult :=
  let refurl2 := if refurl.isNone then env.opt_referer else refurl
  match env.url_parse origurl with
  | none => some ⟨.URLERROR, none, none, 0, 0, []⟩
  | some u => retrieve_url_loop env refurl2 fuel u origurl none 0

/-- The collaborators of `retrieve_from_file`, threaded over an
abstract state type `S` standing for the process-wide mutable context
(the quota counter updated inside the external protocol loops, the
registries, ...): the quota predicate `downloaded_exceeds_quota` reads
that state; `retrieve` performs one `retrieve_url` call and returns the
updated state, the status, and the `filename`/`new_file`/`dt` outputs;
`recursive_retrieve` performs recursive descent on an HTML file. -/
structure BatchEnv (S : Type) where
  quota_exceeded : S → Bool
  retrieve : String → S → S × Uerr × Option String × Option String × DtFlags
  opt_recursive : Bool
  recursive_retrieve : Option String → String → S → S × Uerr

/-- One iteration body of the `retrieve_from_file` loop after the quota
check (retr.c lines 435-451): call `retrieve_url`; when recursion is
enabled, the item succeeded and its content is HTML, the status is
replaced by that of `recursive_retrieve` on the local file and the
resolved final URL (or the original URL when none).  The delete-after
block (lines 440-448) only unlinks the external file and clears a bit
of the local `dt` variable that nothing reads afterwards, so it has no
observable effect on the state, status or count. -/
def batch_step {S : Type} (env : BatchEnv S) (cur : String) (s : S) : S × Uerr :=
  let r1 := env.retrieve cur s
  let s1 := r1.1
  let st1 := r1.2.1
  let filename := r1.2.2.1
  let new_file := r1.2.2.2.1
  let dt := r1.2.2.2.2
  if env.opt_recursive ∧ st1 = .RETROK ∧ dt.texthtml = true then
    env.recursive_retrieve filename (new_file.getD cur) s1
  else (s1, st1)

/-- Embedding of the URL loop of `retrieve_from_file` (retr.c lines
425-452): for each URL, first check the quota — when exceeded, set the
status to `QUOTEXC` and `break`, which skips the loop step expression
`++*count`; otherwise process the item and continue, incrementing the
count in the step expression.  The `attempted` accumulator records the
URLs actually passed to `retrieve_url` (a model-only trace; the C code
has no such variable). -/
def retrieve_from_file_go {S : Type} (env : BatchEnv S) :
    List String → S → Uerr → Nat → List String → Uerr × Nat × List String × S
  | [], s, status, count, attempted => (status, count, attempted, s)
  | cur :: rest, s, _, count, attempted =>
    if env.quota_exceeded s then (.QUOTEXC, count, attempted, s)
    else
      let r2 := batch_step env cur s
      retrieve_from_file_go env rest r2.1 r2.2 (count + 1) (attempted ++ [cur])

/-- Embedding of `retrieve_from_file` (retr.c lines 414-458): the URL
list produced by the external `get_urls_html`/`get_urls_file`
collaborator is passed in as `url_list`; `status` starts at `RETROK`
and `*count` at 0.  Returns the final status, the count, the model-only
trace of attempted URLs, and the final state. -/
def retrieve_from_file {S : Type} (env : BatchEnv S) (url_list : List String)
    (s : S) : Uerr × Nat × List String × S :=
  retrieve_from_file_go env url_list s .RETROK 0 []

/-- The state reached after the driver has processed the given URLs in
order (no quota stop among them). -/
def batch_run_state {S : Type} (env : BatchEnv S) (urls : List String) (s : S) : S :=
  urls.foldl (fun t cur => (batch_step env cur t).1) s

/-- Holds when the quota predicate is false at the state before each
item of `urls` (so each is processed) and true at the state reached
after all of them — that is, the quota check fires exactly on the item
following `urls`. -/
def quotaFiresAfter {S : Type} (env : BatchEnv S) : List String → S → Bool
  | [], s => env.quota_exceeded s
  | cur :: rest, s =>
    !env.quota_exceeded s && quotaFiresAfter env rest (batch_step env cur s).1

/-- A parsed URL for the host `a`. -/
def urlA : URL := ⟨"http://a/", .http, "a"⟩

/-- A parsed URL for the host `b`. -/
def urlB : URL := ⟨"http://b/", .http, "b"⟩

/-- A parsed URL for the host `x`. -/
def urlX : URL := ⟨"http://x/", .http, "x"⟩

/-- A concrete world in which `http://a/` redirects to `http://b/` and
`http://b/` redirects back to `http://a/`, with proxying disabled. -/
def envAB : Env :=
  { opt_use_proxy := false
    opt_referer := none
    opt_recursive := false
    url_parse := fun s =>
      if s = "http://a/" then some urlA
      else if s = "http://b/" then some urlB
      else none
    uri_merge := fun _ loc => loc
    getproxy := fun _ => none
    no_proxy_match := fun _ => true
    http_loop := fun u _ _ =>
      if u.url = "http://a/" then ⟨.NEWLOCATION, some "http://b/", none, ⟨false, false⟩⟩
      else ⟨.NEWLOCATION, some "http://a/", none, ⟨false, false⟩⟩
    ftp_loop := fun _ _ => ⟨.RETROK, none, none, ⟨true, false⟩⟩ }

/-- A concrete world in which no string parses as a URL. -/
def envParseFail : Env :=
  { envAB with url_parse := fun _ => none }

/-- A concrete world in which proxying is enabled but the configured
proxy URL does not parse. -/
def envProxyBad : Env :=
  { envAB with
    opt_use_proxy := true
    getproxy := fun _ => some "http://proxy/"
    url_parse := fun s => if s = "http://x/" then some urlX else none }

/-- A concrete world in which proxying is enabled but the configured
proxy parses to a non-HTTP scheme. -/
def envProxyFtp : Env :=
  { envAB with
    opt_use_proxy := true
    getproxy := fun _ => some "ftp://p/"
    url_parse := fun s =>
      if s = "http://x/" then some urlX
      else if s = "ftp://p/" then some ⟨"ftp://p/", .ftp, "p"⟩
      else none }

/-- A concrete world in which every retrieval terminates at once with
`RETROK` and a local HTML file. -/
def envTerminal : Env :=
  { envAB with
    url_parse := fun s => if s = "http://x/" then some urlX else none
    http_loop := fun _ _ _ => ⟨.RETROK, none, some "index.html", ⟨true, true⟩⟩ }

/-- A concrete world in which the retrieval reports a redirect whose
merged target does not parse. -/
def envRedirBad : Env :=
  { envAB with
    url_parse := fun s => if s = "http://x/" then some urlX else none
    http_loop := fun _ _ _ => ⟨.NEWLOCATION, some "%bad%", none, ⟨false, false⟩⟩ }

/-- A concrete batch world over the state `Nat` (bytes downloaded so
far): every retrieval adds 6 bytes and succeeds, and the quota check
fires once the counter exceeds 10. -/
def envBatch : BatchEnv Nat :=
  { quota_exceeded := fun s => decide (10 < s)
    retrieve := fun _ s => (s + 6, .RETROK, some "f", none, ⟨true, false⟩)
    opt_recursive := false
    recursive_retrieve := fun _ _ s => (s, .RETROK) }

/-- A concrete batch world whose quota is already exceeded before the
first item. -/
def envBatchFull : BatchEnv Unit :=
  { quota_exceeded := fun _ => true
    retrieve := fun _ s => (s, .RETROK, none, none, ⟨false, false⟩)
    opt_recursive := false
    recursive_retrieve := fun _ _ s => (s, .RETROK) }

/-- Running the main loop with no expected length over positive reads
followed by a non-positive one: every chunk is written and reported,
and the loop exits normally with the non-positive result. -/
theorem gcLoop_pos_exit (v : Bool) (exp : Int) (l : List Int) (hl : ∀ r ∈ l, 0 < r)
    (e : Int) (he : e ≤ 0) :
    ∀ (len res : Int) (n : Nat) (evs : List PEvent),
      gcLoop v false exp (l ++ [e]) [] len res n evs =
        .done e (len + l.sum) (n + l.length + 1)
          (evs ++ if v then l.map PEvent.updated else []) := by
  induction l with
  | nil =>
      intro len res n evs
      simp [gcLoop, not_lt.mpr he, popWrite]
  | cons r l ih =>
      intro len res n evs
      have hr : 0 < r := hl r (by simp)
      have hl2 : ∀ x ∈ l, 0 < x := fun x hx => hl x (by simp [hx])
      rw [show ((r :: l) ++ [e]) = r :: (l ++ [e]) by simp]
      rw [gcLoop]
      simp only [true_or, eq_self_iff_true, if_true, hr, if_pos, popWrite]
      rw [ih hl2]
      cases v <;> simp [add_assoc, add_comm, add_left_comm]

/-- Running the main loop with no expected length over positive reads
whose write outcomes are good for the first `l.length` chunks and then
bad: the loop returns the write-error marker right after the failing
chunk, performing no further reads. -/
theorem gcLoop_write_err (v : Bool) (exp : Int) (l : List Int) (hl : ∀ r ∈ l, 0 < r)
    (r : Int) (hr : 0 < r) (rest : List Int) :
    ∀ (len res : Int) (n : Nat) (evs : List PEvent),
      gcLoop v false exp (l ++ r :: rest) (List.replicate l.length true ++ [false])
          len res n evs =
        .werr (len + l.sum) (n + l.length + 1)
          (evs ++ if v then l.map PEvent.updated else []) := by
  induction l with
  | nil =>
      intro len res n evs
      simp [gcLoop, hr, popWrite]
  | cons a l ih =>
      intro len res n evs
      have ha : 0 < a := hl a (by simp)
      have hl2 : ∀ x ∈ l, 0 < x := fun x hx => hl x (by simp [hx])
      rw [show ((a :: l) ++ r :: rest) = a :: (l ++ r :: rest) by simp]
      rw [show (List.replicate (a :: l).length true ++ [false]) =
            true :: (List.replicate l.length true ++ [false]) by simp [List.replicate]]
      rw [gcLoop]
      simp only [true_or, eq_self_iff_true, if_true, ha, if_pos, popWrite]
      rw [ih hl2]
      cases v <;> simp [add_assoc, add_comm, add_left_comm]

/-- With a known expected length already reached on entry, the main
loop performs no reads at all and exits with the incoming result. -/
theorem gcLoop_expected_reached (v : Bool) (exp : Int) (reads : List Int)
    (writes : List Bool) (len res : Int) (n : Nat) (evs : List PEvent)
    (h : exp ≤ len) :
    gcLoop v true exp reads writes len res n evs = .done res len n evs := by
  rw [gcLoop.eq_def]
  simp [not_lt.mpr h]

/-- The rbuf flush prelude with a failing write after `d.length` good
chunks returns the write-error marker with only the good chunks
reported. -/
theorem gcPrelude_write_err (v : Bool) (d : List Int) (r : Int) (rest : List Int) :
    ∀ (len : Int) (evs : List PEvent) (nf : Bool),
      gcPrelude v (d ++ r :: rest) (List.replicate d.length true ++ [false]) len evs nf =
        .werr (len + d.sum) (evs ++ if v then d.map PEvent.updated else []) := by
  induction d with
  | nil =>
      intro len evs nf
      simp [gcPrelude, popWrite]
  | cons a d ih =>
      intro len evs nf
      rw [show ((a :: d) ++ r :: rest) = a :: (d ++ r :: rest) by simp]
      rw [show (List.replicate (a :: d).length true ++ [false]) =
            true :: (List.replicate d.length true ++ [false]) by simp [List.replicate]]
      rw [gcPrelude]
      simp only [popWrite, if_pos]
      rw [ih]
      cases v <;> simp [add_assoc, add_comm, add_left_comm]

/-- Claim C3: `get_contents` returns the clean end-of-stream code 0
when the reads end with result 0 under `use_expected = false` (and in
general a final non-positive read result more negative than -1 is
clamped to -1); it returns -2 as soon as a chunk write fails, without
performing any further reads; and with `use_expected = true` and
`expected = 0` (the length already reached at entry) the main loop
performs zero reads and the function returns 0. -/
theorem get_contents_return_codes (v : Bool) :
    (∀ (restval exp : Int) (l : List Int) (e : Int), (∀ r ∈ l, 0 < r) → e ≤ 0 →
      get_contents ⟨v, restval, exp, false, false, [], true, l ++ [e], []⟩ =
        .ok (if e < -1 then -1 else e) (restval + l.sum) (l.length + 1)
          ((if v then [PEvent.created restval exp] else []) ++
            (if v then l.map PEvent.updated else []) ++
            (if v then [PEvent.finished] else []))) ∧
    (∀ (restval exp : Int) (l : List Int) (r : Int) (rest : List Int),
        (∀ x ∈ l, 0 < x) → 0 < r →
      get_contents ⟨v, restval, exp, false, false, [], true, l ++ r :: rest,
          List.replicate l.length true ++ [false]⟩ =
        .ok (-2) (restval + l.sum) (l.length + 1)
          ((if v then [PEvent.created restval exp] else []) ++
            (if v then l.map PEvent.updated else []))) ∧
    (∀ (restval : Int) (reads : List Int) (writes : List Bool), 0 ≤ restval →
      get_contents ⟨v, restval, 0, true, false, [], true, reads, writes⟩ =
        .ok 0 restval 0
          ((if v then [PEvent.created restval 0] else []) ++
            (if v then [PEvent.finished] else []))) := by
  refine ⟨?_, ?_, ?_⟩
  · intro restval exp l e hl he
    have h := gcLoop_pos_exit v exp l hl e he restval 0 0
      (if v then [PEvent.created restval exp] else [])
    simp only [get_contents, Bool.false_eq_true, if_false, Bool.and_eq_true,
      Bool.not_eq_true] at h ⊢
    rw [h]
    simp [List.append_assoc]
  · intro restval exp l r rest hl hr
    have h := gcLoop_write_err v exp l hl r hr rest restval 0 0
      (if v then [PEvent.created restval exp] else [])
    simp only [get_contents, Bool.false_eq_true, if_false] at h ⊢
    rw [h]
    simp
  · intro restval reads writes h0
    have h := gcLoop_expected_reached v 0 reads writes restval 0 0
      (if v then [PEvent.created restval 0] else []) h0
    simp only [get_contents, Bool.false_eq_true, if_false] at h ⊢
    rw [h]
    simp

/-- Witness for C3: clean end of stream after chunks 5 and 3; a read
error of -7 clamped to -1; a write failure after one good chunk; and a
zero expected length performing zero reads. -/
theorem get_contents_return_codes_witness :
    get_contents ⟨true, 0, 10, false, false, [], true, [5, 3, 0], []⟩ =
      .ok 0 8 3 [.created 0 10, .updated 5, .updated 3, .finished] ∧
    get_contents ⟨true, 0, 10, false, false, [], true, [5, -7], []⟩ =
      .ok (-1) 5 2 [.created 0 10, .updated 5, .finished] ∧
    get_contents ⟨true, 0, 0, false, false, [], true, [5, 3, 9], [true, false]⟩ =
      .ok (-2) 5 2 [.created 0 0, .updated 5] ∧
    get_contents ⟨true, 2, 0, true, false, [], true, [9], []⟩ =
      .ok 0 2 0 [.created 2 0, .finished] := by
  refine ⟨?_, ?_, ?_, ?_⟩
  · simpa using (get_contents_return_codes true).1 0 10 [5, 3] 0 (by decide) (by decide)
  · simpa using (get_contents_return_codes true).1 0 10 [5] (-7) (by decide) (by decide)
  · simpa using (get_contents_return_codes true).2.1 0 0 [5] 3 [9] (by decide) (by decide)
  · simpa using (get_contents_return_codes true).2.2 2 [9] [] (by decide)

/-- Counterexample to claim C4 as stated: with verbose progress
enabled, a write failure on the very first chunk makes `get_contents`
return -2 with a progress trace holding only the creation event — the
reporter is never finalized on this outcome, so it is not finalized
exactly once on every outcome. -/
theorem get_contents_progress_finish_counterexample :
    get_contents ⟨true, 0, 0, false, false, [], true, [5, 0], [false]⟩ =
      .ok (-2) 0 1 [.created 0 0] ∧
    List.count PEvent.finished [PEvent.created 0 0] = 0 := by
  decide

/-- Claim C4 (amended): with verbose progress enabled the reporter is
created before the transfer loop with the restart offset and expected
length, updated once after every successfully written chunk, and
finalized exactly once on the normal loop-exit returns — but it is not
finalized on the early -2 write-error returns, whether the failing
write happens in the main loop or in the rbuf flush prelude. -/
theorem get_contents_progress_events (restval exp : Int) :
    (∀ (l : List Int) (e : Int), (∀ r ∈ l, 0 < r) → e ≤ 0 →
      (get_contents ⟨true, restval, exp, false, false, [], true, l ++ [e], []⟩).trace =
        some (PEvent.created restval exp ::
          (l.map PEvent.updated ++ [PEvent.finished]))) ∧
    (∀ (l : List Int) (r : Int) (rest : List Int), (∀ x ∈ l, 0 < x) → 0 < r →
      (get_contents ⟨true, restval, exp, false, false, [], true, l ++ r :: rest,
          List.replicate l.length true ++ [false]⟩).trace =
        some (PEvent.created restval exp :: l.map PEvent.updated)) ∧
    (∀ (d : List Int) (r : Int) (rest : List Int) (fo : Bool) (reads : List Int),
      (get_contents ⟨true, restval, exp, false, true, d ++ r :: rest, fo, reads,
          List.replicate d.length true ++ [false]⟩).trace =
        some (PEvent.created restval exp :: d.map PEvent.updated)) := by
  refine ⟨?_, ?_, ?_⟩
  · intro l e hl he
    have h := gcLoop_pos_exit true exp l hl e he restval 0 0
      [PEvent.created restval exp]
    simp only [get_contents, Bool.false_eq_true, if_false, if_true] at h ⊢
    rw [h]
    simp [GCOut.trace]
  · intro l r rest hl hr
    have h := gcLoop_write_err true exp l hl r hr rest restval 0 0
      [PEvent.created restval exp]
    simp only [get_contents, Bool.false_eq_true, if_false, if_true] at h ⊢
    rw [h]
    simp [GCOut.trace]
  · intro d r rest fo reads
    have h := gcPrelude_write_err true d r rest restval
      [PEvent.created restval exp] false
    simp only [get_contents, Bool.false_eq_true, if_false, if_true] at h ⊢
    rw [h]
    simp [GCOut.trace]

/-- Witness for C4 (amended): a finalized trace on a clean exit, and
unfinalized traces for a main-loop write failure and a prelude write
failure. -/
theorem get_contents_progress_events_witness :
    (get_contents ⟨true, 1, 9, false, false, [], true, [4, 0], []⟩).trace =
      some [PEvent.created 1 9, PEvent.updated 4, PEvent.finished] ∧
    (get_contents ⟨true, 1, 9, false, false, [], true, [4, 6], [false]⟩).trace =
      some [PEvent.created 1 9] ∧
    (get_contents ⟨true, 1, 9, false, true, [4, 6], true, [0], [true, false]⟩).trace =
      some [PEvent.created 1 9, PEvent.updated 4] := by
  refine ⟨?_, ?_, ?_⟩
  · simpa using (get_contents_progress_events 1 9).1 [4] 0 (by decide) (by decide)
  · simpa using (get_contents_progress_events 1 9).2.1 [] 6 [] (by decide) (by decide)
  · simpa using (get_contents_progress_events 1 9).2.2 [4] 6 [] true [0]

/-- A URL parse failure on entry to `retrieve_url` returns `URLERROR`
with no dispatch, no counter increment and no outputs assigned. -/
theorem retrieve_url_parse_fail (env : Env) (fuel : Nat) (origurl : String)
    (rf0 : Option String) (h : env.url_parse origurl = none) :
    retrieve_url env fuel origurl rf0 = some ⟨.URLERROR, none, none, 0, 0, []⟩ := by
  simp [retrieve_url, h]

/-- When the configured proxy URL does not parse, the redirect loop
returns `PROXERR` without dispatching, incrementing or assigning. -/
theorem retrieve_url_loop_proxy_unparsable (env : Env) (rf : Option String)
    (f : Nat) (u : URL) (url : String) (reds : Option (List String)) (hops : Nat)
    (p : String)
    (h1 : env.opt_use_proxy = true)
    (h2 : env.getproxy u.scheme = some p)
    (h3 : env.no_proxy_match u.host = true)
    (h4 : env.url_parse p = none) :
    retrieve_url_loop env rf (f + 1) u url reds hops =
      some ⟨.PROXERR, none, none, hops, 0, reds.getD []⟩ := by
  simp [retrieve_url_loop, h1, h2, h3, h4]

/-- When the configured proxy parses to a non-HTTP scheme, the redirect
loop returns `PROXERR` without dispatching, incrementing or
assigning. -/
theorem retrieve_url_loop_proxy_nonhttp (env : Env) (rf : Option String)
    (f : Nat) (u : URL) (url : String) (reds : Option (List String)) (hops : Nat)
    (p : String) (q : URL)
    (h1 : env.opt_use_proxy = true)
    (h2 : env.getproxy u.scheme = some p)
    (h3 : env.no_proxy_match u.host = true)
    (h4 : env.url_parse p = some q)
    (h5 : q.scheme ≠ Scheme.http) :
    retrieve_url_loop env rf (f + 1) u url reds hops =
      some ⟨.PROXERR, none, none, hops, 0, reds.getD []⟩ := by
  simp [retrieve_url_loop, h1, h2, h3, h4, h5]

/-- A non-redirect outcome of the dispatched protocol loop terminates
the redirect loop: the outputs are assigned (the local file, and the
current URL string through `newloc`) and `global_download_count` is
incremented exactly once. -/
theorem retrieve_url_loop_terminal (env : Env) (rf : Option String)
    (f : Nat) (u : URL) (url : String) (reds : Option (List String)) (hops : Nat)
    (h1 : env.opt_use_proxy = false)
    (h2 : u.scheme = Scheme.http)
    (h3 : (env.http_loop u rf none).result ≠ .NEWLOCATION) :
    retrieve_url_loop env rf (f + 1) u url reds hops =
      some ⟨(env.http_loop u rf none).result, (env.http_loop u rf none).local_file,
        some url, hops + 1, 1, reds.getD []⟩ := by
  simp [retrieve_url_loop, h1, h2, h3]

/-- When the merged redirect target fails to parse, the loop aborts the
retrieval returning the redirect status, with no outputs assigned and
no counter increment. -/
theorem retrieve_url_loop_redirect_parse_fail (env : Env) (rf : Option String)
    (f : Nat) (u : URL) (url : String) (reds : Option (List String)) (hops : Nat)
    (loc : String) (lf : Option String) (dt : DtFlags)
    (h1 : env.opt_use_proxy = false)
    (h2 : u.scheme = Scheme.http)
    (h3 : env.http_loop u rf none = ⟨.NEWLOCATION, some loc, lf, dt⟩)
    (h4 : env.url_parse (env.uri_merge url loc) = none) :
    retrieve_url_loop env rf (f + 1) u url reds hops =
      some ⟨.NEWLOCATION, none, none, hops + 1, 0, reds.getD []⟩ := by
  simp [retrieve_url_loop, h1, h2, h3, h4]

/-- When the re-parsed redirect target is already in the visited set,
the loop aborts with `WRONGCODE`, no outputs assigned and no counter
increment. -/
theorem retrieve_url_loop_cycle_in_set (env : Env) (rf : Option String)
    (f : Nat) (u : URL) (url : String) (s : List String) (hops : Nat)
    (loc : String) (lf : Option String) (dt : DtFlags) (w : URL)
    (h1 : env.opt_use_proxy = false)
    (h2 : u.scheme = Scheme.http)
    (h3 : env.http_loop u rf none = ⟨.NEWLOCATION, some loc, lf, dt⟩)
    (h4 : env.url_parse (env.uri_merge url loc) = some w)
    (h5 : w.url ∈ s) :
    retrieve_url_loop env rf (f + 1) u url (some s) hops =
      some ⟨.WRONGCODE, none, none, hops + 1, 0, s⟩ := by
  simp [retrieve_url_loop, h1, h2, h3, h4, h5]

/-- Claim C1: when URL `A` redirects to `B` and `B` redirects back to
`A`, `retrieve_url` returns the distinct redirection-cycle status
`WRONGCODE` on the second encounter of `A`, after exactly two
protocol-loop dispatches and never a third, and the visited-redirect
set at that moment holds exactly the pre-redirect URL `A` (recorded
when the set was created on the first redirect) followed by `B`. -/
theorem retrieve_url_redirect_cycle (env : Env) (A B : URL) (f : Nat) (rf : String)
    (lfA lfB : Option String) (dtA dtB : DtFlags)
    (h1 : env.opt_use_proxy = false)
    (h2 : A.scheme = Scheme.http)
    (h3 : B.scheme = Scheme.http)
    (h4 : A.url ≠ B.url)
    (h5 : env.url_parse A.url = some A)
    (h6 : env.url_parse B.url = some B)
    (h7 : env.http_loop A (some rf) none = ⟨.NEWLOCATION, some B.url, lfA, dtA⟩)
    (h8 : env.uri_merge A.url B.url = B.url)
    (h9 : env.http_loop B (some rf) none = ⟨.NEWLOCATION, some A.url, lfB, dtB⟩)
    (h10 : env.uri_merge B.url A.url = A.url) :
    retrieve_url env (f + 2) A.url (some rf) =
      some ⟨.WRONGCODE, none, none, 2, 0, [A.url, B.url]⟩ := by
  have hBA : B.url ≠ A.url := Ne.symm h4
  simp [retrieve_url, retrieve_url_loop, string_set_add, h1, h2, h3, h5, h6, h7,
    h8, h9, h10, hBA]

/-- Witness for C1 in the concrete two-URL world `envAB`. -/
theorem retrieve_url_redirect_cycle_witness :
    retrieve_url envAB 2 "http://a/" (some "http://ref/") =
      some ⟨.WRONGCODE, none, none, 2, 0, ["http://a/", "http://b/"]⟩ := by
  have h := retrieve_url_redirect_cycle envAB urlA urlB 0 "http://ref/" none none
    ⟨false, false⟩ ⟨false, false⟩ (by decide) (by decide) (by decide) (by decide)
    (by decide) (by decide) (by decide) (by decide) (by decide) (by decide)
  simpa [urlA, urlB] using h

/-- Counterexample to claim C2 as stated: a call whose URL fails to
parse returns `URLERROR` having incremented `global_download_count`
zero times, not once — so the counter is not incremented on every
outcome branch. -/
theorem retrieve_url_download_count_counterexample :
    retrieve_url envParseFail 1 "http://x/" none =
      some ⟨.URLERROR, none, none, 0, 0, []⟩ ∧
    (retrieve_url envParseFail 1 "http://x/" none).map RetrieveResult.downloads ≠
      some 1 := by
  decide

/-- Claim C2 (amended): `global_download_count` is incremented exactly
once, as the last step before returning, on the terminal non-redirect
path only; the early error returns — initial URL parse failure,
unparsable or non-HTTP proxy, redirect-target parse failure, and
redirection cycle — return without incrementing it. -/
theorem retrieve_url_download_count_branches (env : Env) (rf rf0 : Option String)
    (fuel f hops : Nat) (origurl url p loc : String) (u q w : URL)
    (lf : Option String) (dt : DtFlags) (reds : Option (List String))
    (s : List String) :
    (env.url_parse origurl = none →
      (retrieve_url env fuel origurl rf0).map RetrieveResult.downloads = some 0) ∧
    (env.opt_use_proxy = false → u.scheme = Scheme.http →
      (env.http_loop u rf none).result ≠ .NEWLOCATION →
      (retrieve_url_loop env rf (f + 1) u url reds hops).map RetrieveResult.downloads =
        some 1) ∧
    (env.opt_use_proxy = true → env.getproxy u.scheme = some p →
      env.no_proxy_match u.host = true → env.url_parse p = none →
      (retrieve_url_loop env rf (f + 1) u url reds hops).map RetrieveResult.downloads =
        some 0) ∧
    (env.opt_use_proxy = true → env.getproxy u.scheme = some p →
      env.no_proxy_match u.host = true → env.url_parse p = some q →
      q.scheme ≠ Scheme.http →
      (retrieve_url_loop env rf (f + 1) u url reds hops).map RetrieveResult.downloads =
        some 0) ∧
    (env.opt_use_proxy = false → u.scheme = Scheme.http →
      env.http_loop u rf none = ⟨.NEWLOCATION, some loc, lf, dt⟩ →
      env.url_parse (env.uri_merge url loc) = none →
      (retrieve_url_loop env rf (f + 1) u url reds hops).map RetrieveResult.downloads =
        some 0) ∧
    (env.opt_use_proxy = false → u.scheme = Scheme.http →
      env.http_loop u rf none = ⟨.NEWLOCATION, some loc, lf, dt⟩ →
      env.url_parse (env.uri_merge url loc) = some w → w.url ∈ s →
      (retrieve_url_loop env rf (f + 1) u url (some s) hops).map
        RetrieveResult.downloads = some 0) := by
  refine ⟨?_, ?_, ?_, ?_, ?_, ?_⟩
  · intro h
    simp [retrieve_url_parse_fail env fuel origurl rf0 h]
  · intro h1 h2 h3
    simp [retrieve_url_loop_terminal env rf f u url reds hops h1 h2 h3]
  · intro h1 h2 h3 h4
    simp [retrieve_url_loop_proxy_unparsable env rf f u url reds hops p h1 h2 h3 h4]
  · intro h1 h2 h3 h4 h5
    simp [retrieve_url_loop_proxy_nonhttp env rf f u url reds hops p q h1 h2 h3 h4 h5]
  · intro h1 h2 h3 h4
    simp [retrieve_url_loop_redirect_parse_fail env rf f u url reds hops loc lf dt
      h1 h2 h3 h4]
  · intro h1 h2 h3 h4 h5
    simp [retrieve_url_loop_cycle_in_set env rf f u url s hops loc lf dt w
      h1 h2 h3 h4 h5]

/-- Witness for C2 (amended) across the concrete worlds: parse failure,
terminal success, unparsable proxy, FTP proxy, unparsable redirect
target, and a redirection cycle. -/
theorem retrieve_url_download_count_branches_witness :
    (retrieve_url envParseFail 1 "http://x/" none).map RetrieveResult.downloads =
      some 0 ∧
    (retrieve_url_loop envTerminal none 1 urlX "http://x/" none 0).map
      RetrieveResult.downloads = some 1 ∧
    (retrieve_url_loop envProxyBad none 1 urlX "http://x/" none 0).map
      RetrieveResult.downloads = some 0 ∧
    (retrieve_url_loop envProxyFtp none 1 urlX "http://x/" none 0).map
      RetrieveResult.downloads = some 0 ∧
    (retrieve_url_loop envRedirBad none 1 urlX "http://x/" none 0).map
      RetrieveResult.downloads = some 0 ∧
    (retrieve_url_loop envAB none 1 urlA "http://a/" (some ["http://b/"]) 0).map
      RetrieveResult.downloads = some 0 := by
  refine ⟨?_, ?_, ?_, ?_, ?_, ?_⟩
  · exact (retrieve_url_download_count_branches envParseFail none none 1 0 0
      "http://x/" "" "" "" urlX urlX urlX none ⟨false, false⟩ none []).1 (by decide)
  · exact (retrieve_url_download_count_branches envTerminal none none 1 0 0 ""
      "http://x/" "" "" urlX urlX urlX none ⟨false, false⟩ none []).2.1 (by decide)
      (by decide) (by decide)
  · exact (retrieve_url_download_count_branches envProxyBad none none 1 0 0 ""
      "http://x/" "http://proxy/" "" urlX urlX urlX none ⟨false, false⟩ none
      []).2.2.1 (by decide) (by decide) (by decide) (by decide)
  · exact (retrieve_url_download_count_branches envProxyFtp none none 1 0 0 ""
      "http://x/" "ftp://p/" "" urlX ⟨"ftp://p/", .ftp, "p"⟩ urlX none
      ⟨false, false⟩ none []).2.2.2.1 (by decide) (by decide) (by decide)
      (by decide) (by decide)
  · exact (retrieve_url_download_count_branches envRedirBad none none 1 0 0 ""
      "http://x/" "" "%bad%" urlX urlX urlX none ⟨false, false⟩ none []).2.2.2.2.1
      (by decide) (by decide) (by decide) (by decide)
  · exact (retrieve_url_download_count_branches envAB none none 1 0 0 ""
      "http://a/" "" "http://b/" urlA urlA urlB none ⟨false, false⟩ none
      ["http://b/"]).2.2.2.2.2 (by decide) (by decide) (by decide) (by decide)
      (by decide)

/-- Claim C10: the `file` and `newloc` output parameters are NULL on
entry and are still NULL on every error return taken before the
terminal non-redirect path — initial URL parse failure, unparsable or
non-HTTP proxy, redirect-target parse failure, redirection cycle — and
only the terminal path assigns them (the local file, and the final
current URL through `newloc`). -/
theorem retrieve_url_output_params (env : Env) (rf rf0 : Option String)
    (fuel f hops : Nat) (origurl url p loc : String) (u q w : URL)
    (lf : Option String) (dt : DtFlags) (reds : Option (List String))
    (s : List String) :
    (env.url_parse origurl = none →
      (retrieve_url env fuel origurl rf0).map RetrieveResult.file = some none ∧
      (retrieve_url env fuel origurl rf0).map RetrieveResult.newloc = some none) ∧
    (env.opt_use_proxy = true → env.getproxy u.scheme = some p →
      env.no_proxy_match u.host = true → env.url_parse p = none →
      (retrieve_url_loop env rf (f + 1) u url reds hops).map RetrieveResult.file =
        some none ∧
      (retrieve_url_loop env rf (f + 1) u url reds hops).map RetrieveResult.newloc =
        some none) ∧
    (env.opt_use_proxy = true → env.getproxy u.scheme = some p →
      env.no_proxy_match u.host = true → env.url_parse p = some q →
      q.scheme ≠ Scheme.http →
      (retrieve_url_loop env rf (f + 1) u url reds hops).map RetrieveResult.file =
        some none ∧
      (retrieve_url_loop env rf (f + 1) u url reds hops).map RetrieveResult.newloc =
        some none) ∧
    (env.opt_use_proxy = false → u.scheme = Scheme.http →
      env.http_loop u rf none = ⟨.NEWLOCATION, some loc, lf, dt⟩ →
      env.url_parse (env.uri_merge url loc) = none →
      (retrieve_url_loop env rf (f + 1) u url reds hops).map RetrieveResult.file =
        some none ∧
      (retrieve_url_loop env rf (f + 1) u url reds hops).map RetrieveResult.newloc =
        some none) ∧
    (env.opt_use_proxy = false → u.scheme = Scheme.http →
      env.http_loop u rf none = ⟨.NEWLOCATION, some loc, lf, dt⟩ →
      env.url_parse (env.uri_merge url loc) = some w → w.url ∈ s →
      (retrieve_url_loop env rf (f + 1) u url (some s) hops).map RetrieveResult.file =
        some none ∧
      (retrieve_url_loop env rf (f + 1) u url (some s) hops).map
        RetrieveResult.newloc = some none) ∧
    (env.opt_use_proxy = false → u.scheme = Scheme.http →
      (env.http_loop u rf none).result ≠ .NEWLOCATION →
      (retrieve_url_loop env rf (f + 1) u url reds hops).map RetrieveResult.file =
        some (env.http_loop u rf none).local_file ∧
      (retrieve_url_loop env rf (f + 1) u url reds hops).map RetrieveResult.newloc =
        some (some url)) := by
  refine ⟨?_, ?_, ?_, ?_, ?_, ?_⟩
  · intro h
    simp [retrieve_url_parse_fail env fuel origurl rf0 h]
  · intro h1 h2 h3 h4
    simp [retrieve_url_loop_proxy_unparsable env rf f u url reds hops p h1 h2 h3 h4]
  · intro h1 h2 h3 h4 h5
    simp [retrieve_url_loop_proxy_nonhttp env rf f u url reds hops p q h1 h2 h3 h4 h5]
  · intro h1 h2 h3 h4
    simp [retrieve_url_loop_redirect_parse_fail env rf f u url reds hops loc lf dt
      h1 h2 h3 h4]
  · intro h1 h2 h3 h4 h5
    simp [retrieve_url_loop_cycle_in_set env rf f u url s hops loc lf dt w
      h1 h2 h3 h4 h5]
  · intro h1 h2 h3
    simp [retrieve_url_loop_terminal env rf f u url reds hops h1 h2 h3]

/-- Witness for C10 across the concrete worlds. -/
theorem retrieve_url_output_params_witness :
    (retrieve_url envParseFail 1 "http://x/" none).map RetrieveResult.file =
      some none ∧
    (retrieve_url envParseFail 1 "http://x/" none).map RetrieveResult.newloc =
      some none ∧
    (retrieve_url_loop envProxyBad none 1 urlX "http://x/" none 0).map
      RetrieveResult.file = some none ∧
    (retrieve_url_loop envProxyFtp none 1 urlX "http://x/" none 0).map
      RetrieveResult.newloc = some none ∧
    (retrieve_url_loop envRedirBad none 1 urlX "http://x/" none 0).map
      RetrieveResult.file = some none ∧
    (retrieve_url_loop envAB none 1 urlA "http://a/" (some ["http://b/"]) 0).map
      RetrieveResult.newloc = some none ∧
    (retrieve_url_loop envTerminal none 1 urlX "http://x/" none 0).map
      RetrieveResult.file = some (some "index.html") ∧
    (retrieve_url_loop envTerminal none 1 urlX "http://x/" none 0).map
      RetrieveResult.newloc = some (some "http://x/") := by
  refine ⟨?_, ?_, ?_, ?_, ?_, ?_, ?_, ?_⟩
  · exact ((retrieve_url_output_params envParseFail none none 1 0 0 "http://x/" ""
      "" "" urlX urlX urlX none ⟨false, false⟩ none []).1 (by decide)).1
  · exact ((retrieve_url_output_params envParseFail none none 1 0 0 "http://x/" ""
      "" "" urlX urlX urlX none ⟨false, false⟩ none []).1 (by decide)).2
  · exact ((retrieve_url_output_params envProxyBad none none 1 0 0 "" "http://x/"
      "http://proxy/" "" urlX urlX urlX none ⟨false, false⟩ none []).2.1
      (by decide) (by decide) (by decide) (by decide)).1
  · exact ((retrieve_url_output_params envProxyFtp none none 1 0 0 "" "http://x/"
      "ftp://p/" "" urlX ⟨"ftp://p/", .ftp, "p"⟩ urlX none ⟨false, false⟩ none
      []).2.2.1 (by decide) (by decide) (by decide) (by decide) (by decide)).2
  · exact ((retrieve_url_output_params envRedirBad none none 1 0 0 "" "http://x/"
      "" "%bad%" urlX urlX urlX none ⟨false, false⟩ none []).2.2.2.1 (by decide)
      (by decide) (by decide) (by decide)).1
  · exact ((retrieve_url_output_params envAB none none 1 0 0 "" "http://a/" ""
      "http://b/" urlA urlA urlB none ⟨false, false⟩ none ["http://b/"]).2.2.2.2.1
      (by decide) (by decide) (by decide) (by decide) (by decide)).2
  · have h := ((retrieve_url_output_params envTerminal none none 1 0 0 ""
      "http://x/" "" "" urlX urlX urlX none ⟨false, false⟩ none []).2.2.2.2.2
      (by decide) (by decide) (by decide)).1
    simpa [envTerminal] using h
  · exact ((retrieve_url_output_params envTerminal none none 1 0 0 "" "http://x/"
      "" "" urlX urlX urlX none ⟨false, false⟩ none []).2.2.2.2.2 (by decide)
      (by decide) (by decide)).2

/-- When the quota predicate fires exactly after the items of `pre`,
the driver loop processes `pre`, breaks on the next item with status
`QUOTEXC`, and — because `break` skips the loop step expression — adds
`pre.length` to the incoming count, leaving the quota-triggering item
unattempted and uncounted. -/
theorem retrieve_from_file_go_quota {S : Type} (env : BatchEnv S) (pre : List String) :
    ∀ (uk : String) (post : List String) (s : S) (st : Uerr) (c : Nat)
      (att : List String), quotaFiresAfter env pre s = true →
      retrieve_from_file_go env (pre ++ uk :: post) s st c att =
        (.QUOTEXC, c + pre.length, att ++ pre, batch_run_state env pre s) := by
  induction pre with
  | nil =>
      intro uk post s st c att h
      simp only [quotaFiresAfter] at h
      simp [retrieve_from_file_go, h, batch_run_state]
  | cons a pre ih =>
      intro uk post s st c att h
      simp only [quotaFiresAfter, Bool.and_eq_true, Bool.not_eq_true'] at h
      rw [show ((a :: pre) ++ uk :: post) = a :: (pre ++ uk :: post) by simp]
      rw [retrieve_from_file_go]
      simp only [h.1, Bool.false_eq_true, if_false]
      rw [ih uk post (batch_step env a s).1 (batch_step env a s).2 (c + 1)
        (att ++ [a]) h.2]
      simp [batch_run_state]
      omega

/-- The driver count always equals the number of URLs actually passed
to `retrieve_url`, whatever stops the loop. -/
theorem retrieve_from_file_go_count {S : Type} (env : BatchEnv S)
    (urls : List String) :
    ∀ (s : S) (st : Uerr) (c : Nat) (att : List String), c = att.length →
      (retrieve_from_file_go env urls s st c att).2.1 =
        (retrieve_from_file_go env urls s st c att).2.2.1.length := by
  induction urls with
  | nil =>
      intro s st c att h
      simpa [retrieve_from_file_go] using h
  | cons a urls ih =>
      intro s st c att h
      by_cases hq : env.quota_exceeded s
      · simp [retrieve_from_file_go, hq, h]
      · rw [retrieve_from_file_go]
        simp only [hq, Bool.false_eq_true, if_false]
        exact ih _ _ _ _ (by simp [h])

/-- Counterexample to claim C5 as stated: with the quota already
exceeded before the first item, the quota check fires on item 1 and the
driver reports count 0, not 1 — the `break` skips the loop step
expression `++*count`, so the quota-triggering item is not counted. -/
theorem retrieve_from_file_count_counterexample :
    retrieve_from_file envBatchFull ["http://u1/"] () = (.QUOTEXC, 0, [], ()) ∧
    (retrieve_from_file envBatchFull ["http://u1/"] ()).2.1 ≠ 1 := by
  decide

/-- Claim C5 (amended): when the quota check fires on item `k` the
driver stops at once with aggregate status `QUOTEXC` and count `k - 1`:
the count equals the number of items actually attempted, excluding the
item whose iteration triggered the quota stop, because `break` skips
the loop step expression that performs the increment.  In general the
count output always equals the number of items passed to
`retrieve_url`. -/
theorem retrieve_from_file_count_spec (S : Type) (env : BatchEnv S)
    (pre post urls : List String) (uk : String) (s s2 : S)
    (h : quotaFiresAfter env pre s = true) :
    retrieve_from_file env (pre ++ uk :: post) s =
      (.QUOTEXC, pre.length, pre, batch_run_state env pre s) ∧
    (retrieve_from_file env urls s2).2.1 =
      (retrieve_from_file env urls s2).2.2.1.length := by
  constructor
  · have h2 := retrieve_from_file_go_quota env pre uk post s .RETROK 0 [] h
    simpa [retrieve_from_file] using h2
  · exact retrieve_from_file_go_count env urls s2 .RETROK 0 [] rfl

/-- Witness for C5 (amended) in the concrete batch world `envBatch`:
the quota check fires on item 3, so the driver reports `QUOTEXC` with
count 2 after attempting exactly the first two items. -/
theorem retrieve_from_file_count_spec_witness :
    retrieve_from_file envBatch ["http://u1/", "http://u2/", "http://u3/"] 0 =
      (.QUOTEXC, 2, ["http://u1/", "http://u2/"], 12) ∧
    (retrieve_from_file envBatch ["http://u1/", "http://u2/"] 0).2.1 =
      (retrieve_from_file envBatch ["http://u1/", "http://u2/"] 0).2.2.1.length := by
  have h := retrieve_from_file_count_spec Nat envBatch ["http://u1/", "http://u2/"]
    [] ["http://u1/", "http://u2/"] "http://u3/" 0 0 (by decide)
  refine ⟨?_, h.2⟩
  simpa [batch_run_state, batch_step, envBatch] using h.1

/-- Claim C6: along every sequence of `downloaded_increase` calls with
non-negative increments, the byte counter is monotonically
non-decreasing; on the call whose wraparound latches the overflow flag
the counter is clamped to the maximum representable value; and once the
flag is latched no later call changes the counter or clears the flag. -/
theorem downloaded_increase_monotone_saturating (o : Opt) (b : Nat) (bs : List Nat)
    (h : o.downloaded ≤ VERY_LONG_MAX) :
    o.downloaded ≤ (downloaded_increase o b).downloaded ∧
    (o.downloaded_overflow = false → (downloaded_increase o b).downloaded_overflow = true →
      (downloaded_increase o b).downloaded = VERY_LONG_MAX) ∧
    (o.downloaded_overflow = true → List.foldl downloaded_increase o bs = o) := by
  refine ⟨?_, ?_, ?_⟩
  · unfold downloaded_increase
    by_cases hov : o.downloaded_overflow
    · simp [hov]
    · simp only [hov, Bool.false_eq_true, if_false]
      split <;> simp <;> omega
  · intro hov hlat
    by_cases hlt : (o.downloaded + b) % VERY_LONG_MODULUS < o.downloaded
    · simp [downloaded_increase, hov, hlt]
    · simp [downloaded_increase, hov, hlt] at hlat
  · intro hov
    induction bs with
    | nil => rfl
    | cons b2 bs ih =>
        rw [List.foldl_cons, show downloaded_increase o b2 = o by
          simp [downloaded_increase, hov], ih]

/-- Witness for C6 at the concrete state with counter 5 and increments
3 then [2, 4]. -/
theorem downloaded_increase_monotone_saturating_witness :
    (⟨5, false, 0, 0, 0⟩ : Opt).downloaded ≤
      (downloaded_increase ⟨5, false, 0, 0, 0⟩ 3).downloaded ∧
    ((⟨5, false, 0, 0, 0⟩ : Opt).downloaded_overflow = false →
      (downloaded_increase ⟨5, false, 0, 0, 0⟩ 3).downloaded_overflow = true →
      (downloaded_increase ⟨5, false, 0, 0, 0⟩ 3).downloaded = VERY_LONG_MAX) ∧
    ((⟨5, false, 0, 0, 0⟩ : Opt).downloaded_overflow = true →
      List.foldl downloaded_increase ⟨5, false, 0, 0, 0⟩ [2, 4] = ⟨5, false, 0, 0, 0⟩) :=
  downloaded_increase_monotone_saturating ⟨5, false, 0, 0, 0⟩ 3 [2, 4] (by decide)

/-- Claim C7: `downloaded_exceeds_quota` is true exactly when a quota
is configured, the overflow flag is not latched, and the counter
strictly exceeds the quota; so it is false for an unset quota, false
under latched overflow regardless of the counter, and false at
equality. -/
theorem downloaded_exceeds_quota_iff (o : Opt) :
    downloaded_exceeds_quota o = true ↔
      o.quota ≠ 0 ∧ o.downloaded_overflow = false ∧ o.quota < o.downloaded := by
  unfold downloaded_exceeds_quota
  split_ifs with h1 h2 <;> simp_all

/-- Claim C8: `sleep_between_retrievals` never sleeps on the first-ever
call but clears the first-attempt flag; on later calls with a per-retry
wait configured and `count > 1` it sleeps `min (count - 1) waitretry`
seconds; otherwise it sleeps the flat wait when configured, else
nothing; and the flag is cleared in every case. -/
theorem sleep_between_retrievals_spec (o : Opt) (c : Nat) :
    sleep_between_retrievals o true c = (0, false) ∧
    (o.waitretry ≠ 0 → 1 < c →
      (sleep_between_retrievals o false c).1 = min (c - 1) o.waitretry) ∧
    (¬ (o.waitretry ≠ 0 ∧ 1 < c) →
      (sleep_between_retrievals o false c).1 = if o.wait ≠ 0 then o.wait else 0) ∧
    (sleep_between_retrievals o false c).2 = false := by
  refine ⟨?_, ?_, ?_, rfl⟩
  · simp [sleep_between_retrievals]
  · intro h1 h2
    simp only [sleep_between_retrievals]
    split_ifs with hA hB hC <;>
      first
        | (simp; omega)
        | exact absurd ⟨h1, h2⟩ hB
        | exact absurd ⟨trivial, Or.inr h1⟩ hA
  · intro h
    simp only [sleep_between_retrievals]
    split_ifs with hA hB hC <;>
      first
        | rfl
        | exact absurd hB h
        | (push_neg at hA
           simp [(hA trivial).1])

/-- Witness for C8: with `waitretry = 5` and attempt count 3 a later
call sleeps `min 2 5 = 2` seconds, and with only a flat `wait = 7` it
sleeps 7 seconds. -/
theorem sleep_between_retrievals_spec_witness :
    (sleep_between_retrievals ⟨0, false, 0, 0, 5⟩ false 3).1 = min (3 - 1) 5 ∧
    (sleep_between_retrievals ⟨0, false, 0, 7, 0⟩ false 3).1 =
      if (7 : Nat) ≠ 0 then 7 else 0 :=
  ⟨(sleep_between_retrievals_spec ⟨0, false, 0, 0, 5⟩ 3).2.1 (by decide) (by decide),
   (sleep_between_retrievals_spec ⟨0, false, 0, 7, 0⟩ 3).2.2.1 (by decide)⟩

/-- Claim C9: `rate` substitutes the timer granularity when `msecs` is
zero (so the divisor is never zero and the result is a finite printed
value), selects its unit at the boundaries 1024, 1024 squared and 1024
cubed bytes per second, and in particular formats 500 bytes in 1000 ms
as "500.00 B/s" and 2048 bytes in 1000 ms as "2.00 K/s". -/
theorem rate_spec (gran bytes : Nat) (pad : Bool) (h : 0 < gran) :
    rate gran bytes 0 pad = rate gran bytes gran pad ∧
    rate gran 0 0 false = "0.00 B/s" ∧
    rate gran 500 1000 false = "500.00 B/s" ∧
    rate gran 2048 1000 false = "2.00 K/s" ∧
    rate gran 1023 1000 false = "1023.00 B/s" ∧
    rate gran 1024 1000 false = "1.00 K/s" ∧
    rate gran 1048575 1000 false = "1024.00 K/s" ∧
    rate gran 1048576 1000 false = "1.00 M/s" ∧
    rate gran 1073741823 1000 false = "1024.00 M/s" ∧
    rate gran 1073741824 1000 false = "1.00 GB/s" := by
  have hg : gran ≠ 0 := h.ne'
  refine ⟨?_, ?_, ?_, ?_, ?_, ?_, ?_, ?_, ?_, ?_⟩
  · unfold rate
    by_cases hz : gran = 0 <;> simp [hz]
  · simp [rate, fmt2, h, hg, Nat.div_eq_of_lt (by omega : gran < 2 * gran)]
    rfl
  all_goals (unfold rate; norm_num; rfl)

/-- Witness for C9 at granularity 1. -/
theorem rate_spec_witness :
    rate 1 42 0 false = rate 1 42 1 false ∧ rate 1 0 0 false = "0.00 B/s" :=
  ⟨(rate_spec 1 42 false (by decide)).1, (rate_spec 1 42 false (by decide)).2.1⟩

end Wget
